import Mathlib

set_option maxHeartbeats 1000000

/- Verification development for the rosrust node facade
   (src/rosrust/src/api/ros.rs) and the message-generation helper
   (src/src/build_tools/genmsg.rs).  External collaborators (master, slave,
   transport) are modelled as oracles; every outgoing call is recorded in an
   effect trace so that rollback and logging behaviour can be stated. -/

/- ------------------------------------------------------------------ -/
/- Part 1: genmsg.rs, string_into_pair.                                -/
/- ------------------------------------------------------------------ -/

/-- Splitting a character list at the first occurrence of a slash, returning
the part before it and the part after it.  Models the effect of Rust
splitn(2, the slash character) on the parts it yields. -/
def splitFirst : List Char → Option (List Char × List Char)
  | [] => none
  | c :: cs =>
    if c = '/' then some ([], cs)
    else
      match splitFirst cs with
      | none => none
      | some (a, b) => some (c :: a, b)

/-- The list of parts produced by Rust splitn(2, the slash character):
the whole input when it holds no slash, otherwise the part before the first
slash followed by everything after it. -/
def splitn2 (s : List Char) : List (List Char) :=
  match splitFirst s with
  | none => [s]
  | some (a, b) => [a, b]

/-- Embedding of string_into_pair from src/src/build_tools/genmsg.rs:
take the iterator of splitn(2, the slash character); a missing first element
yields the "no parts" error, a missing second element yields the format
error, otherwise the pair is returned. -/
def string_into_pair (input : String) : Except String (String × String) :=
  match splitn2 input.data with
  | [] => Except.error ("Package string constains no parts: " ++ input)
  | [_] => Except.error ("Package string needs to be in package/name format: " ++ input)
  | p :: n :: _ => Except.ok (String.mk p, String.mk n)

/- ------------------------------------------------------------------ -/
/- Part 2: the name resolver.                                          -/
/- ------------------------------------------------------------------ -/

/-- Naming errors (api::naming::error::ErrorKind); only the variant the
claims mention is modelled in detail. -/
inductive NamingError
  | illegalCharacter (name : String)
  | other (m : String)
deriving DecidableEq

/-- Modelled from the spec: the Name Resolver state of section 4.A (the
naming module is not part of the provided sources).  It holds the node's
absolute name, its namespace and the remap table. -/
structure Resolver where
  name : String
  ns : String
  remap : List (String × String)
deriving DecidableEq

/-- True when the first character of the string is the given character. -/
def headIs (c : Char) (s : String) : Bool :=
  match s.data with
  | [] => false
  | a :: _ => a = c

/-- Characters allowed inside one component of a graph name: no slash, no
tilde, no whitespace. -/
def okChar (c : Char) : Bool :=
  !(c = '/' || c = '~' || c = ' ' || c = '\t' || c = '\n' || c = '\r')

/-- The components of a character list, split at slashes (a leading slash
yields a leading empty component). -/
def componentsOf : List Char → List (List Char)
  | [] => [[]]
  | c :: cs =>
    if c = '/' then [] :: componentsOf cs
    else
      match componentsOf cs with
      | [] => [[c]]
      | a :: rest => (c :: a) :: rest

/-- One component is valid when it is non-empty and made of allowed
characters. -/
def validComp (cs : List Char) : Bool := !cs.isEmpty && cs.all okChar

/-- A valid absolute graph name: a leading slash followed by at least one
component, every component non-empty and made of allowed characters. -/
def validAbs (s : String) : Bool :=
  match componentsOf s.data with
  | [] :: c :: rest => (c :: rest).all validComp
  | _ => false

/-- First-match lookup in the remap table (keys are unique by section 3 of
the spec, so first match is the match). -/
def lookupRemap : List (String × String) → String → Option String
  | [], _ => none
  | (s, d) :: rest, n => if s = n then some d else lookupRemap rest n

/-- Modelled from the spec: resolution step of translate (section 4.A).  An
absolute name is kept as is, a tilde name is resolved against the node
name, any other name against the namespace; the result is rejected unless
it is a valid absolute name. -/
def Resolver.resolve (r : Resolver) (n : String) : Except NamingError String :=
  let m : String :=
    if headIs '/' n then n
    else if headIs '~' n then r.name ++ "/" ++ String.mk n.data.tail
    else r.ns ++ "/" ++ n
  if validAbs m then Except.ok m else Except.error (NamingError.illegalCharacter n)

/-- Modelled from the spec: translate (section 4.A): resolve to an absolute
name, then apply the remap table once (one-shot substitution). -/
def Resolver.translate (r : Resolver) (n : String) : Except NamingError String :=
  match Resolver.resolve r n with
  | Except.error e => Except.error e
  | Except.ok m =>
    match lookupRemap r.remap m with
    | some d => Except.ok d
    | none => Except.ok m

/-- Modelled from the spec: map (section 4.A): both arguments are first
translated, then the pair is stored in the remap table. -/
def Resolver.map (r : Resolver) (src dst : String) : Except NamingError Resolver :=
  match Resolver.translate r src, Resolver.translate r dst with
  | Except.ok s, Except.ok d => Except.ok { r with remap := r.remap ++ [(s, d)] }
  | Except.error e, _ => Except.error e
  | _, Except.error e => Except.error e

/- ------------------------------------------------------------------ -/
/- Part 3: the node facade (api/ros.rs).                               -/
/- ------------------------------------------------------------------ -/

/-- Errors of the directory RPC layer (rosxmlrpc::ResponseError): a
client-side rejection carrying a message, or any other failure. -/
inductive ResponseError
  | client (m : String)
  | server (m : String)
  | transport (m : String)
deriving DecidableEq

/-- Facade errors (api::error::ErrorKind as far as the claims need them):
naming failures, directory response failures converted by the question-mark
operator, the wait_for_service timeout, and everything else. -/
inductive RosError
  | naming (e : NamingError)
  | response (e : ResponseError)
  | timeout
  | other (m : String)
deriving DecidableEq

/-- One recorded outgoing call of the facade: slave mutations, directory
registrations, logging.  The trace of these effects is what the rollback
claims are stated over. -/
inductive Effect
  | newResolver (name : String)
  | newSlave (name : String)
  | newMaster (name : String)
  | addService (name : String)
  | removeService (name : String)
  | registerService (name api : String)
  | unregisterService (name api : String)
  | addSubscription (name : String)
  | removeSubscription (name : String)
  | registerSubscriber (name ty : String)
  | unregisterSubscriber (name : String)
  | addPublishersToSubscription (name : String) (pubs : List String)
  | addPublication (name : String)
  | removePublication (name : String)
  | registerPublisher (name ty : String)
  | unregisterPublisher (name : String)
  | logSubscribeError (name : String) (e : RosError)
  | logPublishError (name : String) (e : ResponseError)
  | masterParamCall (method : String) (name : String)
deriving DecidableEq

/-- True for effects that are calls on the directory (master). -/
def Effect.isDirectoryCall : Effect → Bool
  | Effect.registerService _ _ => true
  | Effect.unregisterService _ _ => true
  | Effect.registerSubscriber _ _ => true
  | Effect.unregisterSubscriber _ => true
  | Effect.registerPublisher _ _ => true
  | Effect.unregisterPublisher _ => true
  | Effect.masterParamCall _ _ => true
  | _ => false

/-- Oracle for the external collaborators of the facade: the outcome of
every fallible slave or master call ros.rs makes.  Slave calls fail with
facade errors, master calls with directory response errors (converted at
the call sites, as by the Rust From conversions). -/
structure Env where
  newResolver : String → Except RosError Resolver
  newSlave : String → Except RosError String
  addService : String → String → Except RosError String
  registerService : String → String → Except ResponseError Unit
  unregisterService : String → String → Except ResponseError Nat
  addSubscription : String → Except RosError Unit
  registerSubscriber : String → String → Except ResponseError (List String)
  unregisterSubscriber : String → Except ResponseError Nat
  addPublishersToSubscription : String → List String → Except RosError Unit
  addPublication : String → String → Except RosError Unit
  registerPublisher : String → String → Except ResponseError (List String)
  unregisterPublisher : String → Except ResponseError Nat

/-- The facade state: the fields of struct Ros that the embedded operations
read or write (master and slave live behind the Env oracle). -/
structure Ros where
  name : String
  hostname : String
  resolver : Resolver

/-- Drop every trailing slash of a character list given in reverse order. -/
def dropLeadingSlashes : List Char → List Char
  | [] => []
  | c :: cs => if c = '/' then dropLeadingSlashes cs else c :: cs

/-- Embedding of trim_right_matches applied to a single slash: every
trailing slash of the string is removed. -/
def trimRightSlashes (s : String) : String :=
  String.mk (dropLeadingSlashes s.data.reverse).reverse

/-- Embedding of Rust str contains for a single character. -/
def containsChar (s : String) (c : Char) : Bool := s.data.contains c

/-- Embedding of Ros::new_raw: trim the namespace, reject a leaf name
holding a slash, build the absolute name, then create resolver, slave and
master in that order.  The trace records which collaborators were
created. -/
def Ros.new_raw (env : Env) (master_uri hostname ns leaf : String) :
    Except RosError Ros × List Effect :=
  let ns2 := trimRightSlashes ns
  if containsChar leaf '/' then
    (Except.error (RosError.naming (NamingError.illegalCharacter leaf)), [])
  else
    let full := ns2 ++ "/" ++ leaf
    match env.newResolver full with
    | Except.error e => (Except.error e, [Effect.newResolver full])
    | Except.ok res =>
      match env.newSlave full with
      | Except.error e => (Except.error e, [Effect.newResolver full, Effect.newSlave full])
      | Except.ok _uri =>
        (Except.ok { name := full, hostname := hostname, resolver := res },
         [Effect.newResolver full, Effect.newSlave full, Effect.newMaster full])

/-- Embedding of pub fn name of Ros: returns the stored absolute name. -/
def Ros.getName (r : Ros) : String := r.name

/-- Embedding of the resolver call self.resolver.translate(...)? inside the
facade: the naming error is converted into a facade error. -/
def Ros.translate (r : Ros) (n : String) : Except RosError String :=
  match Resolver.translate r.resolver n with
  | Except.ok v => Except.ok v
  | Except.error e => Except.error (RosError.naming e)

/-- Embedding of Ros::map: remap through the resolver; only the resolver
field of the state changes. -/
def Ros.map (r : Ros) (src dst : String) : Except RosError Ros :=
  match Resolver.map r.resolver src dst with
  | Except.ok res => Except.ok { r with resolver := res }
  | Except.error e => Except.error (RosError.naming e)

/-- Embedding of Ros::service: resolve, add the service to the slave, then
register with the directory; on registration failure remove the slave
service, unregister (propagating that call's own failure through the
question mark), and return the error. -/
def Ros.service (r : Ros) (env : Env) (svc : String) :
    Ros × Except RosError Unit × List Effect :=
  match Ros.translate r svc with
  | Except.error e => (r, Except.error e, [])
  | Except.ok name =>
    match env.addService r.hostname name with
    | Except.error e => (r, Except.error e, [Effect.addService name])
    | Except.ok api =>
      match env.registerService name api with
      | Except.ok _ =>
        (r, Except.ok (), [Effect.addService name, Effect.registerService name api])
      | Except.error err =>
        (r,
         match env.unregisterService name api with
         | Except.ok _ => Except.error (RosError.response err)
         | Except.error e2 => Except.error (RosError.response e2),
         [Effect.addService name, Effect.registerService name api,
          Effect.removeService name, Effect.unregisterService name api])

/-- Embedding of Ros::subscribe: resolve, add the subscription to the
slave, register with the directory; on success hand the returned publisher
set to the slave, logging (not propagating) a failure there; on directory
failure remove the subscription, unregister, and return the error. -/
def Ros.subscribe (r : Ros) (env : Env) (topic ty : String) :
    Ros × Except RosError Unit × List Effect :=
  match Ros.translate r topic with
  | Except.error e => (r, Except.error e, [])
  | Except.ok name =>
    match env.addSubscription name with
    | Except.error e => (r, Except.error e, [Effect.addSubscription name])
    | Except.ok _ =>
      match env.registerSubscriber name ty with
      | Except.ok publishers =>
        match env.addPublishersToSubscription name publishers with
        | Except.ok _ =>
          (r, Except.ok (),
           [Effect.addSubscription name, Effect.registerSubscriber name ty,
            Effect.addPublishersToSubscription name publishers])
        | Except.error err =>
          (r, Except.ok (),
           [Effect.addSubscription name, Effect.registerSubscriber name ty,
            Effect.addPublishersToSubscription name publishers,
            Effect.logSubscribeError name err])
      | Except.error err =>
        (r,
         match env.unregisterSubscriber name with
         | Except.ok _ => Except.error (RosError.response err)
         | Except.error e2 => Except.error (RosError.response e2),
         [Effect.addSubscription name, Effect.registerSubscriber name ty,
          Effect.removeSubscription name, Effect.unregisterSubscriber name])

/-- Embedding of Ros::publish: resolve, add the publication to the slave,
register with the directory; on failure log, remove the publication,
unregister, and return the error.  The publisher stream is abstracted to
a unit value. -/
def Ros.publish (r : Ros) (env : Env) (topic ty : String) :
    Ros × Except RosError Unit × List Effect :=
  match Ros.translate r topic with
  | Except.error e => (r, Except.error e, [])
  | Except.ok name =>
    match env.addPublication r.hostname name with
    | Except.error e => (r, Except.error e, [Effect.addPublication name])
    | Except.ok stream =>
      match env.registerPublisher name ty with
      | Except.ok _ =>
        (r, Except.ok stream,
         [Effect.addPublication name, Effect.registerPublisher name ty])
      | Except.error err =>
        (r,
         match env.unregisterPublisher name with
         | Except.ok _ => Except.error (RosError.response err)
         | Except.error e2 => Except.error (RosError.response e2),
         [Effect.addPublication name, Effect.registerPublisher name ty,
          Effect.logPublishError name err, Effect.removePublication name,
          Effect.unregisterPublisher name])

/-- Embedding of the polling loop of Ros::wait_for_service.  The oracle
gives the outcome of lookup_service at poll number i and the elapsed
milliseconds observed right after that poll.  The loop returns none when
the fuel runs out (the Rust loop would still be polling), otherwise the
result together with the list of sleep durations performed (one 100 ms
sleep per continued poll). -/
def waitLoop (lookup : Nat → Except ResponseError String) (elapsed : Nat → Nat)
    (timeout : Option Nat) : Nat → Nat → Option (Except RosError Unit × List Nat)
  | 0, _ => none
  | fuel + 1, i =>
    match lookup i with
    | Except.ok _ => some (Except.ok (), [])
    | Except.error e =>
      match e with
      | ResponseError.client m =>
        if m = "no provider" then
          match timeout with
          | some t =>
            if elapsed i > t then some (Except.error RosError.timeout, [])
            else
              match waitLoop lookup elapsed timeout fuel (i + 1) with
              | none => none
              | some (res, sleeps) => some (res, 100 :: sleeps)
          | none =>
            match waitLoop lookup elapsed timeout fuel (i + 1) with
            | none => none
            | some (res, sleeps) => some (res, 100 :: sleeps)
        else some (Except.error (RosError.response e), [])
      | _ => some (Except.error (RosError.response e), [])

/-- Embedding of Ros::wait_for_service: resolve the service name, then run
the polling loop from poll number zero. -/
def Ros.wait_for_service (r : Ros) (lookup : Nat → Except ResponseError String)
    (elapsed : Nat → Nat) (service : String) (timeout : Option Nat) (fuel : Nat) :
    Option (Except RosError Unit × List Nat) :=
  match Ros.translate r service with
  | Except.error e => some (Except.error e, [])
  | Except.ok _ => waitLoop lookup elapsed timeout fuel 0

/-- The parameter handle: the translated absolute name plus (implicitly) a
reference to the directory client. -/
structure Parameter where
  name : String
deriving DecidableEq

/-- Embedding of Ros::param: translate through the resolver; a translation
failure yields none, otherwise the handle.  No directory call happens, so
the effect trace is empty. -/
def Ros.param (r : Ros) (pname : String) : Option Parameter × List Effect :=
  match Resolver.translate r.resolver pname with
  | Except.ok v => (some { name := v }, [])
  | Except.error _ => (none, [])

/-- Embedding of pub fn name of Parameter. -/
def Parameter.getName (p : Parameter) : String := p.name

/-- Oracle for the parameter-store calls the Parameter handle makes on the
directory; parameter values are abstracted to strings. -/
structure MasterParams where
  getParam : String → Except ResponseError String
  setParam : String → String → Except ResponseError Unit
  deleteParam : String → Except ResponseError Unit
  hasParam : String → Except ResponseError Bool
  searchParam : String → Except ResponseError String

/-- Embedding of Parameter::get (and get_raw, which differs only in the
decoded value type): one get_param directory call. -/
def Parameter.get (p : Parameter) (mp : MasterParams) :
    Except ResponseError String × List Effect :=
  (mp.getParam p.name, [Effect.masterParamCall "get_param" p.name])

/-- Embedding of Parameter::set: one set_param directory call. -/
def Parameter.set (p : Parameter) (mp : MasterParams) (v : String) :
    Except ResponseError Unit × List Effect :=
  (mp.setParam p.name v, [Effect.masterParamCall "set_param" p.name])

/-- Embedding of Parameter::delete: one delete_param directory call. -/
def Parameter.delete (p : Parameter) (mp : MasterParams) :
    Except ResponseError Unit × List Effect :=
  (mp.deleteParam p.name, [Effect.masterParamCall "delete_param" p.name])

/-- Embedding of Parameter::exists: one has_param directory call. -/
def Parameter.exists (p : Parameter) (mp : MasterParams) :
    Except ResponseError Bool × List Effect :=
  (mp.hasParam p.name, [Effect.masterParamCall "has_param" p.name])

/-- Embedding of Parameter::search: one search_param directory call. -/
def Parameter.search (p : Parameter) (mp : MasterParams) :
    Except ResponseError String × List Effect :=
  (mp.searchParam p.name, [Effect.masterParamCall "search_param" p.name])

/- ------------------------------------------------------------------ -/
/- Part 4: concrete fixtures for evaluation.                           -/
/- ------------------------------------------------------------------ -/

/-- A resolver with no remappings. -/
def resolverPlain : Resolver := { name := "/ns/node", ns := "/ns", remap := [] }

/-- A resolver whose remap table chains: the value of one entry is the key
of another. -/
def resolverChained : Resolver :=
  { name := "/ns/node", ns := "/ns", remap := [("/a", "/b"), ("/b", "/c")] }

/-- A resolver with a single remapping whose value is not itself a key. -/
def resolverOneShot : Resolver :=
  { name := "/ns/node", ns := "/ns", remap := [("/a", "/b")] }

/-- A concrete facade state over the plain resolver. -/
def rosPlain : Ros := { name := "/ns/node", hostname := "host", resolver := resolverPlain }

/-- An oracle under which every local slave mutation succeeds and every
directory registration fails with a client error. -/
def envRegisterFails : Env where
  newResolver := fun full => Except.ok { name := full, ns := "/ns", remap := [] }
  newSlave := fun _ => Except.ok "http:slave"
  addService := fun _ _ => Except.ok "api"
  registerService := fun _ _ => Except.error (ResponseError.client "boom")
  unregisterService := fun _ _ => Except.ok 1
  addSubscription := fun _ => Except.ok ()
  registerSubscriber := fun _ _ => Except.error (ResponseError.client "boom")
  unregisterSubscriber := fun _ => Except.ok 1
  addPublishersToSubscription := fun _ _ => Except.ok ()
  addPublication := fun _ _ => Except.ok ()
  registerPublisher := fun _ _ => Except.error (ResponseError.client "boom")
  unregisterPublisher := fun _ => Except.ok 1

/-- An oracle under which registration succeeds but handing the publisher
set to the slave fails. -/
def envPublishersFail : Env where
  newResolver := fun full => Except.ok { name := full, ns := "/ns", remap := [] }
  newSlave := fun _ => Except.ok "http:slave"
  addService := fun _ _ => Except.ok "api"
  registerService := fun _ _ => Except.ok ()
  unregisterService := fun _ _ => Except.ok 1
  addSubscription := fun _ => Except.ok ()
  registerSubscriber := fun _ _ => Except.ok ["http:pub1", "http:pub2"]
  unregisterSubscriber := fun _ => Except.ok 1
  addPublishersToSubscription := fun _ _ => Except.error (RosError.other "connect failed")
  addPublication := fun _ _ => Except.ok ()
  registerPublisher := fun _ _ => Except.ok []
  unregisterPublisher := fun _ => Except.ok 1

/-- An oracle under which every call succeeds. -/
def envAllOk : Env where
  newResolver := fun full => Except.ok { name := full, ns := "/ns", remap := [] }
  newSlave := fun _ => Except.ok "http:slave"
  addService := fun _ _ => Except.ok "api"
  registerService := fun _ _ => Except.ok ()
  unregisterService := fun _ _ => Except.ok 1
  addSubscription := fun _ => Except.ok ()
  registerSubscriber := fun _ _ => Except.ok []
  unregisterSubscriber := fun _ => Except.ok 1
  addPublishersToSubscription := fun _ _ => Except.ok ()
  addPublication := fun _ _ => Except.ok ()
  registerPublisher := fun _ _ => Except.ok []
  unregisterPublisher := fun _ => Except.ok 1

/-- A lookup sequence answering no provider on the first poll and a URI
afterwards. -/
def lookupOnceThenOk (i : Nat) : Except ResponseError String :=
  if i = 0 then Except.error (ResponseError.client "no provider") else Except.ok "http:srv"

/-- A lookup sequence answering no provider forever. -/
def lookupNever (_ : Nat) : Except ResponseError String :=
  Except.error (ResponseError.client "no provider")

/-- A clock advancing fifty milliseconds per poll. -/
def clockFifty (i : Nat) : Nat := 50 * i

/- ------------------------------------------------------------------ -/
/- Part 5: theorems.                                                   -/
/- ------------------------------------------------------------------ -/

theorem splitFirst_sound : ∀ (s p n : List Char), splitFirst s = some (p, n) →
    s = p ++ '/' :: n ∧ '/' ∉ p := by
  intro s
  induction s with
  | nil => intro p n h; simp [splitFirst] at h
  | cons c cs ih =>
    intro p n h
    by_cases hc : c = '/'
    · subst hc
      simp [splitFirst] at h
      obtain ⟨hp, hn⟩ := h
      subst hp; subst hn
      simp
    · simp only [splitFirst, if_neg hc] at h
      cases h' : splitFirst cs with
      | none => rw [h'] at h; simp at h
      | some ab =>
        obtain ⟨a, b⟩ := ab
        rw [h'] at h
        simp only [Option.some.injEq, Prod.mk.injEq] at h
        obtain ⟨hp, hn⟩ := h
        subst hn
        obtain ⟨hcs, hna⟩ := ih a b h'
        subst hp
        constructor
        · rw [hcs]; rfl
        · intro hmem
          rcases List.mem_cons.1 hmem with h1 | h2
          · exact hc h1.symm
          · exact hna h2

theorem splitFirst_none_iff : ∀ (s : List Char), splitFirst s = none ↔ '/' ∉ s := by
  intro s
  induction s with
  | nil => simp [splitFirst]
  | cons c cs ih =>
    by_cases hc : c = '/'
    · subst hc
      simp [splitFirst]
    · simp only [splitFirst, if_neg hc]
      cases h' : splitFirst cs with
      | none =>
        have hcs : '/' ∉ cs := ih.1 h'
        simp only [List.mem_cons]
        constructor
        · intro _ hor
          rcases hor with h1 | h2
          · exact hc h1.symm
          · exact hcs h2
        · intro _
          trivial
      | some ab =>
        obtain ⟨a, b⟩ := ab
        have hcs : '/' ∈ cs := by
          by_contra hno
          rw [ih.2 hno] at h'
          exact Option.noConfusion h'
        simp only [List.mem_cons]
        constructor
        · intro hcontra
          exact Option.noConfusion hcontra
        · intro hnot
          exact absurd (Or.inr hcs) hnot

theorem splitn2_ne_nil (s : List Char) : splitn2 s ≠ [] := by
  unfold splitn2
  cases h' : splitFirst s with
  | none => simp
  | some ab => obtain ⟨a, b⟩ := ab; simp

/-- C10: for every input, string_into_pair splits at the first slash when
the input holds one (package before it, name after it), fails with the
format error when it holds none, and the "no parts" branch is unreachable
since splitn2 never yields an empty list. -/
theorem C10_string_into_pair_split (input : String) :
    ('/' ∈ input.data →
      ∃ p n, input.data = p ++ '/' :: n ∧ '/' ∉ p ∧
        string_into_pair input = Except.ok (String.mk p, String.mk n)) ∧
    ('/' ∉ input.data →
      string_into_pair input =
        Except.error ("Package string needs to be in package/name format: " ++ input)) ∧
    splitn2 input.data ≠ [] := by
  refine ⟨?_, ?_, splitn2_ne_nil input.data⟩
  · intro hmem
    cases h' : splitFirst input.data with
    | none => exact absurd hmem ((splitFirst_none_iff input.data).1 h')
    | some ab =>
      obtain ⟨p, n⟩ := ab
      obtain ⟨hs, hnp⟩ := splitFirst_sound input.data p n h'
      exact ⟨p, n, hs, hnp, by simp [string_into_pair, splitn2, h']⟩
  · intro hnot
    have h' : splitFirst input.data = none := (splitFirst_none_iff input.data).2 hnot
    simp [string_into_pair, splitn2, h']

theorem C10_string_into_pair_split_witness :
    (∃ p n, "pkg/name".data = p ++ '/' :: n ∧ '/' ∉ p ∧
        string_into_pair "pkg/name" = Except.ok (String.mk p, String.mk n)) ∧
    string_into_pair "pkgname" =
      Except.error ("Package string needs to be in package/name format: " ++ "pkgname") :=
  ⟨(C10_string_into_pair_split "pkg/name").1 (by decide),
   (C10_string_into_pair_split "pkgname").2.1 (by decide)⟩

theorem headIs_of_validAbs (m : String) (hm : validAbs m = true) : headIs '/' m = true := by
  rcases m with ⟨data⟩
  cases data with
  | nil => simp [validAbs, componentsOf] at hm
  | cons c cs =>
    by_cases hc : c = '/'
    · subst hc
      simp [headIs]
    · exfalso
      simp only [validAbs, componentsOf, if_neg hc] at hm
      cases h'' : componentsOf cs with
      | nil => rw [h''] at hm; simp at hm
      | cons a rest => rw [h''] at hm; simp at hm

theorem validAbs_of_resolve (r : Resolver) (n a : String)
    (h : Resolver.resolve r n = Except.ok a) : validAbs a = true := by
  simp only [Resolver.resolve] at h
  generalize hM : (if headIs '/' n then n
      else if headIs '~' n then r.name ++ "/" ++ String.mk n.data.tail
      else r.ns ++ "/" ++ n) = M at h
  by_cases hv : validAbs M = true
  · rw [if_pos hv] at h
    cases h
    exact hv
  · rw [if_neg hv] at h
    cases h

theorem translate_resolve_ok (r : Resolver) (n a : String)
    (hres : Resolver.resolve r n = Except.ok a) :
    Resolver.translate r n =
      (match lookupRemap r.remap a with
       | some d => Except.ok d
       | none => Except.ok a) := by
  unfold Resolver.translate
  rw [hres]

theorem translate_resolve_error (r : Resolver) (n : String) (e : NamingError)
    (hres : Resolver.resolve r n = Except.error e) :
    Resolver.translate r n = Except.error e := by
  unfold Resolver.translate
  rw [hres]

theorem resolve_valid (r : Resolver) (m : String) (hm : validAbs m = true) :
    Resolver.resolve r m = Except.ok m := by
  simp [Resolver.resolve, headIs_of_validAbs m hm, hm]

theorem lookupRemap_mem : ∀ (l : List (String × String)) (n d : String),
    lookupRemap l n = some d → ∃ s, (s, d) ∈ l := by
  intro l
  induction l with
  | nil => intro n d h; simp [lookupRemap] at h
  | cons p rest ih =>
    intro n d h
    obtain ⟨s, v⟩ := p
    by_cases hs : s = n
    · subst hs
      simp [lookupRemap] at h
      subst h
      exact ⟨s, List.mem_cons_self _ _⟩
    · simp only [lookupRemap, if_neg hs] at h
      obtain ⟨s2, hmem⟩ := ih n d h
      exact ⟨s2, List.mem_cons_of_mem _ hmem⟩

/-- C7 counterexample: over the spec-modelled resolver with the chained
remap table mapping the a-name to the b-name and the b-name to the c-name,
translate of the a-name succeeds yet applying translate to its own result
changes it again, so translate is not idempotent. -/
theorem C7_translate_not_idempotent :
    Resolver.translate resolverChained "/a" = Except.ok "/b" ∧
    ¬ ((Resolver.translate resolverChained "/a").bind (Resolver.translate resolverChained)
        = Resolver.translate resolverChained "/a") := by
  refine ⟨rfl, ?_⟩
  intro h
  rw [show Resolver.translate resolverChained "/a" = Except.ok "/b" from rfl] at h
  have h2 : Resolver.translate resolverChained "/b" = Except.ok "/c" := rfl
  rw [show (Except.ok "/b" : Except NamingError String).bind (Resolver.translate resolverChained)
      = Resolver.translate resolverChained "/b" from rfl, h2] at h
  have : ("/c" : String) = "/b" := Except.ok.inj h
  exact absurd this (by decide)

/-- C7 amended: translate is idempotent on every name it accepts, provided
the remap table is non-chaining: every remap value is a valid absolute
name that is not itself a remap key.  (Tables built by map satisfy
validity and absoluteness of values; non-chaining is the extra condition
the counterexample forces.) -/
theorem C7_translate_idempotent (r : Resolver)
    (hvals : ∀ p ∈ r.remap, validAbs p.2 = true ∧ lookupRemap r.remap p.2 = none)
    (n m : String) (h : Resolver.translate r n = Except.ok m) :
    Resolver.translate r m = Except.ok m := by
  cases hres : Resolver.resolve r n with
  | error e =>
    rw [translate_resolve_error r n e hres] at h
    cases h
  | ok a =>
    rw [translate_resolve_ok r n a hres] at h
    have hva : validAbs a = true := validAbs_of_resolve r n a hres
    cases hl : lookupRemap r.remap a with
    | some d =>
      rw [hl] at h
      have hmd : d = m := Except.ok.inj h
      subst hmd
      obtain ⟨s, hmem⟩ := lookupRemap_mem r.remap a d hl
      obtain ⟨hvd, hld⟩ := hvals (s, d) hmem
      rw [translate_resolve_ok r d d (resolve_valid r d hvd), hld]
    | none =>
      rw [hl] at h
      have ham : a = m := Except.ok.inj h
      subst ham
      rw [translate_resolve_ok r a a (resolve_valid r a hva), hl]

theorem C7_translate_idempotent_witness :
    Resolver.translate resolverOneShot "/b" = Except.ok "/b" :=
  C7_translate_idempotent resolverOneShot (by decide) "/a" "/b" rfl

/-- C5: construction rejects a leaf name holding a slash with the naming
IllegalCharacter error and performs no collaborator creation at all (in
particular neither slave nor master is created). -/
theorem C5_new_raw_rejects_slash (env : Env) (master_uri hostname ns leaf : String)
    (h : containsChar leaf '/' = true) :
    Ros.new_raw env master_uri hostname ns leaf =
      (Except.error (RosError.naming (NamingError.illegalCharacter leaf)), []) := by
  simp [Ros.new_raw, h]

theorem C5_new_raw_rejects_slash_witness :
    Ros.new_raw envAllOk "http:master" "host" "/ns" "a/b" =
      (Except.error (RosError.naming (NamingError.illegalCharacter "a/b")), []) :=
  C5_new_raw_rejects_slash envAllOk "http:master" "host" "/ns" "a/b" (by decide)

theorem head_dropLeadingSlashes : ∀ (l : List Char) (c : Char),
    (dropLeadingSlashes l).head? = some c → c ≠ '/' := by
  intro l
  induction l with
  | nil => intro c h; simp [dropLeadingSlashes] at h
  | cons a as ih =>
    intro c h
    by_cases ha : a = '/'
    · subst ha
      simp only [dropLeadingSlashes, if_pos rfl] at h
      exact ih c h
    · simp only [dropLeadingSlashes, if_neg ha, List.head?_cons, Option.some.injEq] at h
      subst h
      exact ha

theorem new_raw_ok_fields (env : Env) (master_uri hostname ns leaf : String) (r : Ros)
    (h : (Ros.new_raw env master_uri hostname ns leaf).1 = Except.ok r) :
    r.name = trimRightSlashes ns ++ "/" ++ leaf ∧ r.hostname = hostname := by
  simp only [Ros.new_raw] at h
  by_cases hc : containsChar leaf '/' = true
  · rw [if_pos hc] at h
    simp at h
  · rw [if_neg hc] at h
    cases hres : env.newResolver (trimRightSlashes ns ++ "/" ++ leaf) with
    | error e => rw [hres] at h; simp at h
    | ok res =>
      rw [hres] at h
      cases hsl : env.newSlave (trimRightSlashes ns ++ "/" ++ leaf) with
      | error e => rw [hsl] at h; simp at h
      | ok uri =>
        rw [hsl] at h
        simp at h
        rw [← h]
        exact ⟨rfl, rfl⟩

theorem map_preserves_name (r : Ros) (src dst : String) (r2 : Ros)
    (h : Ros.map r src dst = Except.ok r2) : r2.name = r.name := by
  unfold Ros.map at h
  cases hm : Resolver.map r.resolver src dst with
  | error e => rw [hm] at h; simp at h
  | ok res =>
    rw [hm] at h
    simp at h
    rw [← h]

theorem service_fst (r : Ros) (env : Env) (svc : String) : (Ros.service r env svc).1 = r := by
  unfold Ros.service
  repeat' split
  all_goals rfl

theorem subscribe_fst (r : Ros) (env : Env) (topic ty : String) :
    (Ros.subscribe r env topic ty).1 = r := by
  unfold Ros.subscribe
  repeat' split
  all_goals rfl

theorem publish_fst (r : Ros) (env : Env) (topic ty : String) :
    (Ros.publish r env topic ty).1 = r := by
  unfold Ros.publish
  repeat' split
  all_goals rfl

/-- C6: a successful construction stores namespace-with-trailing-slashes-
removed plus slash plus leaf as the node name (the trimmed namespace ends
in no slash); the name accessor returns exactly that string; and no public
operation changes it: map returns a state with the same name, and the
three slave-mutating operations return the state unchanged. -/
theorem C6_node_name_immutable (env : Env) (master_uri hostname ns leaf : String) (r : Ros)
    (h : (Ros.new_raw env master_uri hostname ns leaf).1 = Except.ok r) :
    r.name = trimRightSlashes ns ++ "/" ++ leaf ∧
    (∀ c, (trimRightSlashes ns).data.reverse.head? = some c → c ≠ '/') ∧
    Ros.getName r = trimRightSlashes ns ++ "/" ++ leaf ∧
    (∀ src dst r2, Ros.map r src dst = Except.ok r2 → r2.name = r.name) ∧
    (∀ svc, (Ros.service r env svc).1 = r) ∧
    (∀ topic ty, (Ros.subscribe r env topic ty).1 = r) ∧
    (∀ topic ty, (Ros.publish r env topic ty).1 = r) := by
  obtain ⟨hname, _⟩ := new_raw_ok_fields env master_uri hostname ns leaf r h
  refine ⟨hname, ?_, hname, ?_, ?_, ?_, ?_⟩
  · intro c hc
    have : (dropLeadingSlashes ns.data.reverse).head? = some c := by
      have hrev : (trimRightSlashes ns).data.reverse = dropLeadingSlashes ns.data.reverse := by
        simp [trimRightSlashes]
      rw [hrev] at hc
      exact hc
    exact head_dropLeadingSlashes ns.data.reverse c this
  · intro src dst r2 hm
    exact map_preserves_name r src dst r2 hm
  · intro svc
    exact service_fst r env svc
  · intro topic ty
    exact subscribe_fst r env topic ty
  · intro topic ty
    exact publish_fst r env topic ty

theorem C6_node_name_immutable_witness :
    rosPlain.name = trimRightSlashes "/ns//" ++ "/" ++ "node" :=
  (C6_node_name_immutable envAllOk "http:master" "host" "/ns//" "node" rosPlain rfl).1

/-- C1: for each of the three registration operations, when the directory
registration call fails the operation removes the local state it had
created (service, subscription, publication respectively) and returns an
error to the caller (either the registration error or, if the compensating
unregister call itself fails, that failure). -/
theorem C1_registration_rollback (r : Ros) (env : Env) :
    (∀ svc name api e, Ros.translate r svc = Except.ok name →
        env.addService r.hostname name = Except.ok api →
        env.registerService name api = Except.error e →
        Effect.removeService name ∈ (Ros.service r env svc).2.2 ∧
        ∃ e2, (Ros.service r env svc).2.1 = Except.error e2) ∧
    (∀ topic ty name e, Ros.translate r topic = Except.ok name →
        env.addSubscription name = Except.ok () →
        env.registerSubscriber name ty = Except.error e →
        Effect.removeSubscription name ∈ (Ros.subscribe r env topic ty).2.2 ∧
        ∃ e2, (Ros.subscribe r env topic ty).2.1 = Except.error e2) ∧
    (∀ topic ty name e, Ros.translate r topic = Except.ok name →
        env.addPublication r.hostname name = Except.ok () →
        env.registerPublisher name ty = Except.error e →
        Effect.removePublication name ∈ (Ros.publish r env topic ty).2.2 ∧
        ∃ e2, (Ros.publish r env topic ty).2.1 = Except.error e2) := by
  refine ⟨?_, ?_, ?_⟩
  · intro svc name api e h1 h2 h3
    simp only [Ros.service, h1, h2, h3]
    refine ⟨by simp, ?_⟩
    cases env.unregisterService name api with
    | ok u => exact ⟨_, rfl⟩
    | error e2 => exact ⟨_, rfl⟩
  · intro topic ty name e h1 h2 h3
    simp only [Ros.subscribe, h1, h2, h3]
    refine ⟨by simp, ?_⟩
    cases env.unregisterSubscriber name with
    | ok u => exact ⟨_, rfl⟩
    | error e2 => exact ⟨_, rfl⟩
  · intro topic ty name e h1 h2 h3
    simp only [Ros.publish, h1, h2, h3]
    refine ⟨by simp, ?_⟩
    cases env.unregisterPublisher name with
    | ok u => exact ⟨_, rfl⟩
    | error e2 => exact ⟨_, rfl⟩

theorem C1_registration_rollback_witness :
    (Effect.removeService "/svc" ∈ (Ros.service rosPlain envRegisterFails "/svc").2.2 ∧
      ∃ e2, (Ros.service rosPlain envRegisterFails "/svc").2.1 = Except.error e2) ∧
    (Effect.removeSubscription "/top" ∈
        (Ros.subscribe rosPlain envRegisterFails "/top" "pkg/Ty").2.2 ∧
      ∃ e2, (Ros.subscribe rosPlain envRegisterFails "/top" "pkg/Ty").2.1 = Except.error e2) ∧
    (Effect.removePublication "/top" ∈
        (Ros.publish rosPlain envRegisterFails "/top" "pkg/Ty").2.2 ∧
      ∃ e2, (Ros.publish rosPlain envRegisterFails "/top" "pkg/Ty").2.1 = Except.error e2) :=
  ⟨(C1_registration_rollback rosPlain envRegisterFails).1 "/svc" "/svc" "api"
      (ResponseError.client "boom") rfl rfl rfl,
   (C1_registration_rollback rosPlain envRegisterFails).2.1 "/top" "pkg/Ty" "/top"
      (ResponseError.client "boom") rfl rfl rfl,
   (C1_registration_rollback rosPlain envRegisterFails).2.2 "/top" "pkg/Ty" "/top"
      (ResponseError.client "boom") rfl rfl rfl⟩

/-- C2: when register_service fails inside Ros::service, the implementation
calls both remove_service on the slave and unregister_service on the master
for that name (the full call trace is exactly add, register, remove,
unregister) before returning an error. -/
theorem C2_service_failure_unregisters (r : Ros) (env : Env) (svc name api : String)
    (err : ResponseError)
    (h1 : Ros.translate r svc = Except.ok name)
    (h2 : env.addService r.hostname name = Except.ok api)
    (h3 : env.registerService name api = Except.error err) :
    (Ros.service r env svc).2.2 =
      [Effect.addService name, Effect.registerService name api,
       Effect.removeService name, Effect.unregisterService name api] ∧
    ∃ e2, (Ros.service r env svc).2.1 = Except.error e2 := by
  simp only [Ros.service, h1, h2, h3]
  refine ⟨by trivial, ?_⟩
  cases env.unregisterService name api with
  | ok u => exact ⟨_, rfl⟩
  | error e2 => exact ⟨_, rfl⟩

theorem C2_service_failure_unregisters_witness :
    (Ros.service rosPlain envRegisterFails "/srv2").2.2 =
      [Effect.addService "/srv2", Effect.registerService "/srv2" "api",
       Effect.removeService "/srv2", Effect.unregisterService "/srv2" "api"] ∧
    ∃ e2, (Ros.service rosPlain envRegisterFails "/srv2").2.1 = Except.error e2 :=
  C2_service_failure_unregisters rosPlain envRegisterFails "/srv2" "/srv2" "api"
    (ResponseError.client "boom") rfl rfl rfl

/-- C3: when register_subscriber succeeds but handing the returned
publisher set to the slave fails, subscribe still returns success, the
failure is only logged, and the local subscription is not removed. -/
theorem C3_subscribe_best_effort (r : Ros) (env : Env) (topic ty name : String)
    (pubs : List String) (err : RosError)
    (h1 : Ros.translate r topic = Except.ok name)
    (h2 : env.addSubscription name = Except.ok ())
    (h3 : env.registerSubscriber name ty = Except.ok pubs)
    (h4 : env.addPublishersToSubscription name pubs = Except.error err) :
    (Ros.subscribe r env topic ty).2.1 = Except.ok () ∧
    Effect.removeSubscription name ∉ (Ros.subscribe r env topic ty).2.2 ∧
    Effect.logSubscribeError name err ∈ (Ros.subscribe r env topic ty).2.2 := by
  simp only [Ros.subscribe, h1, h2, h3, h4]
  refine ⟨by trivial, ?_, by simp⟩
  simp

theorem C3_subscribe_best_effort_witness :
    (Ros.subscribe rosPlain envPublishersFail "/top" "pkg/Ty").2.1 = Except.ok () ∧
    Effect.removeSubscription "/top" ∉
      (Ros.subscribe rosPlain envPublishersFail "/top" "pkg/Ty").2.2 ∧
    Effect.logSubscribeError "/top" (RosError.other "connect failed") ∈
      (Ros.subscribe rosPlain envPublishersFail "/top" "pkg/Ty").2.2 :=
  C3_subscribe_best_effort rosPlain envPublishersFail "/top" "pkg/Ty" "/top"
    ["http:pub1", "http:pub2"] (RosError.other "connect failed") rfl rfl rfl rfl

theorem waitLoop_step_ok (lookup : Nat → Except ResponseError String) (elapsed : Nat → Nat)
    (timeout : Option Nat) (fuel i : Nat) (uri : String)
    (hl : lookup i = Except.ok uri) :
    waitLoop lookup elapsed timeout (fuel + 1) i = some (Except.ok (), []) := by
  cases timeout with
  | none =>
    rw [waitLoop, hl]
  | some t =>
    rw [waitLoop, hl]

theorem waitLoop_step_error (lookup : Nat → Except ResponseError String) (elapsed : Nat → Nat)
    (timeout : Option Nat) (fuel i : Nat) (e : ResponseError)
    (hl : lookup i = Except.error e)
    (hne : ∀ msg, e = ResponseError.client msg → msg ≠ "no provider") :
    waitLoop lookup elapsed timeout (fuel + 1) i =
      some (Except.error (RosError.response e), []) := by
  have hm : ∀ msg, e = ResponseError.client msg → msg ≠ "no provider" := hne
  cases timeout with
  | none =>
    rw [waitLoop, hl]
    cases e with
    | client msg => simp [hm msg rfl]
    | server msg => rfl
    | transport msg => rfl
  | some t =>
    rw [waitLoop, hl]
    cases e with
    | client msg => simp [hm msg rfl]
    | server msg => rfl
    | transport msg => rfl

theorem waitLoop_step_timeout (lookup : Nat → Except ResponseError String) (elapsed : Nat → Nat)
    (t fuel i : Nat)
    (hl : lookup i = Except.error (ResponseError.client "no provider"))
    (hgt : elapsed i > t) :
    waitLoop lookup elapsed (some t) (fuel + 1) i =
      some (Except.error RosError.timeout, []) := by
  conv_lhs => rw [waitLoop, hl]
  show (if elapsed i > t then some (Except.error RosError.timeout, [])
        else match waitLoop lookup elapsed (some t) fuel (i + 1) with
          | none => none
          | some (res, sleeps) => some (res, 100 :: sleeps)) =
    some (Except.error RosError.timeout, [])
  rw [if_pos hgt]

theorem waitLoop_step_continue (lookup : Nat → Except ResponseError String)
    (elapsed : Nat → Nat) (t fuel i : Nat)
    (hl : lookup i = Except.error (ResponseError.client "no provider"))
    (hle : elapsed i ≤ t) :
    waitLoop lookup elapsed (some t) (fuel + 1) i =
      (waitLoop lookup elapsed (some t) fuel (i + 1)).map
        (fun rs => (rs.1, 100 :: rs.2)) := by
  conv_lhs => rw [waitLoop, hl]
  show (if elapsed i > t then some (Except.error RosError.timeout, [])
        else match waitLoop lookup elapsed (some t) fuel (i + 1) with
          | none => none
          | some (res, sleeps) => some (res, 100 :: sleeps)) =
    (waitLoop lookup elapsed (some t) fuel (i + 1)).map (fun rs => (rs.1, 100 :: rs.2))
  rw [if_neg (by omega : ¬ elapsed i > t)]
  cases hw : waitLoop lookup elapsed (some t) fuel (i + 1) with
  | none => simp
  | some rs =>
    obtain ⟨res, sl⟩ := rs
    simp

theorem waitLoop_shift (lookup : Nat → Except ResponseError String) (elapsed : Nat → Nat)
    (t : Nat) : ∀ (k m i : Nat),
    (∀ j, j < k → lookup (i + j) = Except.error (ResponseError.client "no provider") ∧
        elapsed (i + j) ≤ t) →
    waitLoop lookup elapsed (some t) (k + (m + 1)) i =
      (waitLoop lookup elapsed (some t) (m + 1) (i + k)).map
        (fun rs => (rs.1, List.replicate k 100 ++ rs.2)) := by
  intro k
  induction k with
  | zero =>
    intro m i hk
    cases hw : waitLoop lookup elapsed (some t) (m + 1) i with
    | none => simp [hw]
    | some rs => simp [hw]
  | succ k ih =>
    intro m i hk
    have h0 := hk 0 (Nat.succ_pos k)
    rw [Nat.add_zero] at h0
    have harr : (k + 1) + (m + 1) = (k + (m + 1)) + 1 := by omega
    have hk2 : ∀ j, j < k →
        lookup ((i + 1) + j) = Except.error (ResponseError.client "no provider") ∧
        elapsed ((i + 1) + j) ≤ t := by
      intro j hj
      have := hk (j + 1) (by omega)
      rwa [show i + (j + 1) = (i + 1) + j by omega] at this
    rw [harr, waitLoop_step_continue lookup elapsed t (k + (m + 1)) i h0.1 h0.2,
      ih m (i + 1) hk2, show i + (k + 1) = (i + 1) + k by omega]
    cases hw : waitLoop lookup elapsed (some t) (m + 1) ((i + 1) + k) with
    | none => simp
    | some rs => simp [List.replicate_succ]

theorem waitLoop_step_continue_none (lookup : Nat → Except ResponseError String)
    (elapsed : Nat → Nat) (fuel i : Nat)
    (hl : lookup i = Except.error (ResponseError.client "no provider")) :
    waitLoop lookup elapsed none (fuel + 1) i =
      (waitLoop lookup elapsed none fuel (i + 1)).map (fun rs => (rs.1, 100 :: rs.2)) := by
  rw [waitLoop, hl]
  show (match waitLoop lookup elapsed none fuel (i + 1) with
        | none => none
        | some (res, sleeps) => some (res, 100 :: sleeps)) =
    (waitLoop lookup elapsed none fuel (i + 1)).map (fun rs => (rs.1, 100 :: rs.2))
  cases hw : waitLoop lookup elapsed none fuel (i + 1) with
  | none => simp
  | some rs =>
    obtain ⟨res, sl⟩ := rs
    simp

theorem waitLoop_none_no_timeout (lookup : Nat → Except ResponseError String)
    (elapsed : Nat → Nat) :
    ∀ (fuel i : Nat) (sleeps : List Nat),
      waitLoop lookup elapsed none fuel i ≠ some (Except.error RosError.timeout, sleeps) := by
  intro fuel
  induction fuel with
  | zero => intro i sleeps h; exact Option.noConfusion h
  | succ fuel ih =>
    intro i sleeps h
    cases hl : lookup i with
    | ok uri =>
      rw [waitLoop_step_ok lookup elapsed none fuel i uri hl] at h
      simp at h
    | error e =>
      cases e with
      | client msg =>
        by_cases hm : msg = "no provider"
        · subst hm
          rw [waitLoop_step_continue_none lookup elapsed fuel i hl] at h
          cases hw : waitLoop lookup elapsed none fuel (i + 1) with
          | none => rw [hw] at h; simp at h
          | some rs =>
            obtain ⟨res, sl⟩ := rs
            rw [hw] at h
            simp at h
            obtain ⟨h1, h2⟩ := h
            rw [h1] at hw
            exact ih (i + 1) sl hw
        · rw [waitLoop_step_error lookup elapsed none fuel i _ hl
              (by intro m hm2; cases hm2; exact hm)] at h
          simp at h
      | server msg =>
        rw [waitLoop_step_error lookup elapsed none fuel i _ hl
            (by intro m hm2; cases hm2)] at h
        simp at h
      | transport msg =>
        rw [waitLoop_step_error lookup elapsed none fuel i _ hl
            (by intro m hm2; cases hm2)] at h
        simp at h

theorem waitLoop_noProvider_forever (lookup : Nat → Except ResponseError String)
    (elapsed : Nat → Nat)
    (hall : ∀ j, lookup j = Except.error (ResponseError.client "no provider")) :
    ∀ (fuel i : Nat), waitLoop lookup elapsed none fuel i = none := by
  intro fuel
  induction fuel with
  | zero => intro i; rfl
  | succ fuel ih =>
    intro i
    rw [waitLoop_step_continue_none lookup elapsed fuel i (hall i), ih (i + 1)]
    rfl

theorem translate_error_naming (r : Ros) (s : String) (e : RosError)
    (h : Ros.translate r s = Except.error e) : ∃ ne, e = RosError.naming ne := by
  unfold Ros.translate at h
  cases ht : Resolver.translate r.resolver s with
  | ok v => rw [ht] at h; simp at h
  | error ne =>
    rw [ht] at h
    simp at h
    subst h
    exact ⟨ne, rfl⟩

theorem wait_for_service_translate_ok (r : Ros) (lookup : Nat → Except ResponseError String)
    (elapsed : Nat → Nat) (service nm : String) (timeout : Option Nat) (fuel : Nat)
    (htr : Ros.translate r service = Except.ok nm) :
    Ros.wait_for_service r lookup elapsed service timeout fuel =
      waitLoop lookup elapsed timeout fuel 0 := by
  unfold Ros.wait_for_service
  rw [htr]

theorem wait_for_service_translate_error (r : Ros) (lookup : Nat → Except ResponseError String)
    (elapsed : Nat → Nat) (service : String) (e : RosError) (timeout : Option Nat) (fuel : Nat)
    (htr : Ros.translate r service = Except.error e) :
    Ros.wait_for_service r lookup elapsed service timeout fuel =
      some (Except.error e, []) := by
  unfold Ros.wait_for_service
  rw [htr]

/-- C4: with a finite deadline t, wait_for_service (after successful name
resolution, with k initial polls answering no provider while the deadline
is not yet exceeded, and enough fuel) returns success as soon as a lookup
succeeds, returns any non-no-provider lookup error as that error, sleeps
100 ms between the k continued polls, and returns Timeout exactly when a
no-provider poll observes elapsed time beyond t, so the failure occurs at
or after t. -/
theorem C4_wait_for_service_timeout (r : Ros) (lookup : Nat → Except ResponseError String)
    (elapsed : Nat → Nat) (service nm : String) (t k m : Nat)
    (htr : Ros.translate r service = Except.ok nm)
    (hk : ∀ j, j < k → lookup j = Except.error (ResponseError.client "no provider") ∧
        elapsed j ≤ t) :
    (∀ uri, lookup k = Except.ok uri →
      Ros.wait_for_service r lookup elapsed service (some t) (k + (m + 1)) =
        some (Except.ok (), List.replicate k 100)) ∧
    (∀ e, lookup k = Except.error e →
      (∀ msg, e = ResponseError.client msg → msg ≠ "no provider") →
      Ros.wait_for_service r lookup elapsed service (some t) (k + (m + 1)) =
        some (Except.error (RosError.response e), List.replicate k 100)) ∧
    (lookup k = Except.error (ResponseError.client "no provider") → elapsed k > t →
      Ros.wait_for_service r lookup elapsed service (some t) (k + (m + 1)) =
        some (Except.error RosError.timeout, List.replicate k 100) ∧ t ≤ elapsed k) := by
  have hws : Ros.wait_for_service r lookup elapsed service (some t) (k + (m + 1)) =
      waitLoop lookup elapsed (some t) (k + (m + 1)) 0 :=
    wait_for_service_translate_ok r lookup elapsed service nm (some t) (k + (m + 1)) htr
  have hk0 : ∀ j, j < k →
      lookup (0 + j) = Except.error (ResponseError.client "no provider") ∧
      elapsed (0 + j) ≤ t := by
    intro j hj
    rw [Nat.zero_add]
    exact hk j hj
  have hshift := waitLoop_shift lookup elapsed t k m 0 hk0
  rw [Nat.zero_add] at hshift
  refine ⟨?_, ?_, ?_⟩
  · intro uri hok
    rw [hws, hshift, waitLoop_step_ok lookup elapsed (some t) m k uri hok]
    simp
  · intro e herr hne
    rw [hws, hshift, waitLoop_step_error lookup elapsed (some t) m k e herr hne]
    simp
  · intro hnp hgt
    refine ⟨?_, le_of_lt hgt⟩
    rw [hws, hshift, waitLoop_step_timeout lookup elapsed t m k hnp hgt]
    simp

theorem C4_wait_for_service_timeout_witness :
    Ros.wait_for_service rosPlain lookupOnceThenOk clockFifty "/srv" (some 1000) (1 + (5 + 1)) =
      some (Except.ok (), List.replicate 1 100) :=
  (C4_wait_for_service_timeout rosPlain lookupOnceThenOk clockFifty "/srv" "/srv" 1000 1 5 rfl
    (by
      intro j hj
      have hj0 : j = 0 := by omega
      subst hj0
      exact ⟨rfl, by decide⟩)).1 "http:srv" rfl

/-- C9: without a deadline, wait_for_service never returns the Timeout
error, whatever the lookup outcomes; and while every poll answers no
provider it keeps polling (the fuel-bounded model returns none for every
fuel). -/
theorem C9_no_timeout_without_deadline (r : Ros) (lookup : Nat → Except ResponseError String)
    (elapsed : Nat → Nat) (service : String) (fuel : Nat) :
    (∀ sleeps, Ros.wait_for_service r lookup elapsed service none fuel ≠
        some (Except.error RosError.timeout, sleeps)) ∧
    ((∀ j, lookup j = Except.error (ResponseError.client "no provider")) →
      ∀ nm, Ros.translate r service = Except.ok nm →
        Ros.wait_for_service r lookup elapsed service none fuel = none) := by
  constructor
  · intro sleeps h
    cases htr : Ros.translate r service with
    | error e =>
      rw [wait_for_service_translate_error r lookup elapsed service e none fuel htr] at h
      obtain ⟨ne, hne⟩ := translate_error_naming r service e htr
      subst hne
      simp at h
    | ok nm =>
      rw [wait_for_service_translate_ok r lookup elapsed service nm none fuel htr] at h
      exact waitLoop_none_no_timeout lookup elapsed fuel 0 sleeps h
  · intro hall nm htr
    rw [wait_for_service_translate_ok r lookup elapsed service nm none fuel htr]
    exact waitLoop_noProvider_forever lookup elapsed hall fuel 0

theorem C9_no_timeout_without_deadline_witness :
    Ros.wait_for_service rosPlain lookupNever clockFifty "/srv" none 5 ≠
        some (Except.error RosError.timeout, []) ∧
    Ros.wait_for_service rosPlain lookupNever clockFifty "/srv" none 5 = none :=
  ⟨(C9_no_timeout_without_deadline rosPlain lookupNever clockFifty "/srv" 5).1 [],
   (C9_no_timeout_without_deadline rosPlain lookupNever clockFifty "/srv" 5).2
      (fun _ => rfl) "/srv" rfl⟩

/-- C8: Ros::param returns none exactly when the resolver fails to
translate the name; otherwise it returns a handle whose stored name is the
translated absolute name; param itself performs no directory call (its
effect trace is empty), while each of the handle's get, set, delete,
exists and search methods does contact the directory. -/
theorem C8_param_no_directory_call (r : Ros) (pname : String) :
    ((Ros.param r pname).1 = none ↔
      ∃ e, Resolver.translate r.resolver pname = Except.error e) ∧
    (∀ v, Resolver.translate r.resolver pname = Except.ok v →
      (Ros.param r pname).1 = some { name := v } ∧
      ∀ p, (Ros.param r pname).1 = some p → Parameter.getName p = v) ∧
    (Ros.param r pname).2 = [] ∧
    (∀ p mp, ((Parameter.get p mp).2.any Effect.isDirectoryCall) = true) ∧
    (∀ p mp v, ((Parameter.set p mp v).2.any Effect.isDirectoryCall) = true) ∧
    (∀ p mp, ((Parameter.delete p mp).2.any Effect.isDirectoryCall) = true) ∧
    (∀ p mp, ((Parameter.exists p mp).2.any Effect.isDirectoryCall) = true) ∧
    (∀ p mp, ((Parameter.search p mp).2.any Effect.isDirectoryCall) = true) := by
  refine ⟨?_, ?_, ?_, fun p mp => rfl, fun p mp v => rfl, fun p mp => rfl,
    fun p mp => rfl, fun p mp => rfl⟩
  · cases ht : Resolver.translate r.resolver pname with
    | ok v => simp [Ros.param, ht]
    | error e => simp [Ros.param, ht]
  · intro v hv
    refine ⟨by simp [Ros.param, hv], ?_⟩
    intro p hp
    simp [Ros.param, hv] at hp
    rw [← hp]
    rfl
  · cases ht : Resolver.translate r.resolver pname with
    | ok v => simp [Ros.param, ht]
    | error e => simp [Ros.param, ht]

theorem C8_param_no_directory_call_witness :
    (Ros.param rosPlain "/p").1 = some { name := "/p" } ∧
    (Ros.param rosPlain "/p").2 = [] :=
  ⟨((C8_param_no_directory_call rosPlain "/p").2.1 "/p" rfl).1,
   (C8_param_no_directory_call rosPlain "/p").2.2.1⟩
